import Mathlib

/-!
# Verification of the Gyruss tube-shooter movement engine

Shallow embedding of the movement and formation subsystem of the
`gyruss-tube-shooter` repository, together with proofs and refutations of the
frozen specification claims.

Embedded source files:
* `TunnelCoordinateSystem` (polar/screen conversions, depth factor),
* `SpiralPathGenerator` (`src/js/SpiralPathGenerator.js`),
* the `EnhancedEnemyMovement` state machine of `src/unnamed/part_009`
  (phases SPIRAL/ORBIT/ATTACK/RETURN/DESTROY, bounds checking, forceAttack),
* the SPAWN branch of the `EnhancedEnemyMovement` variant in
  `src/js/EnhancedEnemyMovement.js` (phases spawn..destroy) and its
  `getFormationAngle`.

JavaScript numbers are modelled as real numbers.  Where a computation can
produce `NaN` in the source (the `0/0` in `SpiralPathGenerator` when
`duration = 0`) the affected quantities are modelled as `Option ℝ`, with
`none` standing for `NaN`; all arithmetic on such quantities propagates
`none` exactly as IEEE arithmetic propagates `NaN`.  `Math.atan2(y, x)` is
modelled by the argument of the complex number `x + y·i`, which has the same
range `(-π, π]` and the same values on the axes.
-/

open Real

noncomputable section

/-! ## JavaScript numeric primitives -/

/-- JavaScript `Math.trunc` / the implicit truncation of the `%` operator:
rounding towards zero. -/
def jsTrunc (x : ℝ) : ℤ := if 0 ≤ x then ⌊x⌋ else ⌈x⌉

/-- JavaScript remainder `a % b` for `b ≠ 0`: the remainder has the sign of
the dividend, `a % b = a - b * trunc (a / b)`. -/
def jsMod (a b : ℝ) : ℝ := a - b * jsTrunc (a / b)

/-- `Math.atan2(y, x)`, modelled as the argument of `x + y·i`;
range `(-π, π]`, `atan2 0 0 = 0`. -/
def atan2 (y x : ℝ) : ℝ := Complex.arg ⟨x, y⟩

/-- NaN-propagating binary operation on JS numbers (`none` = NaN). -/
def jsMap2 (f : ℝ → ℝ → ℝ) : Option ℝ → Option ℝ → Option ℝ
  | some a, some b => some (f a b)
  | _, _ => none

/-! ## GameConfig (src/js/config.js) -/

namespace GameConfig

def width : ℝ := 800
def height : ℝ := 600
def centerX : ℝ := 400
def centerY : ℝ := 300

end GameConfig

/-! ## TunnelCoordinateSystem (part_008) -/

namespace Tunnel

/-- `this.maxRadius = 400`. -/
def maxRadius : ℝ := 400

/-- `depthConfig.minScale`. -/
def minScale : ℝ := 0.2

/-- `depthConfig.maxScale`. -/
def maxScale : ℝ := 2.5

/-- `polarToScreen(radius, angle)`:
`(centerX + radius*cos(angle), centerY + radius*sin(angle))`. -/
def polarToScreen (radius angle : ℝ) : ℝ × ℝ :=
  (GameConfig.centerX + radius * Real.cos angle,
   GameConfig.centerY + radius * Real.sin angle)

/-- `screenToPolar(x, y)`: `(sqrt(dx²+dy²), atan2(dy, dx))`. -/
def screenToPolar (x y : ℝ) : ℝ × ℝ :=
  (Real.sqrt ((x - GameConfig.centerX) ^ 2 + (y - GameConfig.centerY) ^ 2),
   atan2 (y - GameConfig.centerY) (x - GameConfig.centerX))

/-- `calculateDepthFactor(radius) = 1 - min(radius / maxRadius, 1)`. -/
def calculateDepthFactor (radius : ℝ) : ℝ :=
  1 - min (radius / maxRadius) 1

/-- `calculateSpriteScale(radius) = minScale + (maxScale - minScale) * depthFactor`. -/
def calculateSpriteScale (radius : ℝ) : ℝ :=
  minScale + (maxScale - minScale) * calculateDepthFactor radius

/-- `normalizeAngle(angle)`: JS `angle % 2π`, then `+ 2π` if negative. -/
def normalizeAngle (angle : ℝ) : ℝ :=
  let m := jsMod angle (2 * π)
  if m < 0 then m + 2 * π else m

end Tunnel

/-! ## SpiralPathGenerator (src/js/SpiralPathGenerator.js)

`generateSpiralPath(spiralType, startRadius, targetRadius, startAngle,
duration)` loops `for (frame = 0; frame <= duration; frame++)` and pushes one
sample per frame with `t = frame / duration`.  When `duration = 0` the single
iteration computes `t = 0/0 = NaN`, which propagates into every numeric field
of the sample; when `duration < 0` the loop body never runs and the path is
empty.  `NaN` is modelled by `none`.  An unrecognized `spiralType` string
falls back to the `gyruss` entry (`types[spiralType] || types.gyruss`); the
type is modelled as the closed enumeration of the four defined profiles.
The path cache is a pure memoization and is not modelled. -/

namespace SpiralGen

/-- The keys of `spiralConfig.types`. -/
inductive SpiralType
  | archimedean
  | logarithmic
  | hyperbolic
  | gyruss
deriving DecidableEq

/-- `spiralConfig.types[ty].radiusFunction`. -/
def radiusFunction : SpiralType → ℝ → ℝ
  | .archimedean => fun t => t * 2
  | .logarithmic => fun t => Real.exp (t * 0.5) * 10
  | .hyperbolic => fun t => 100 / (1 - t * 0.8)
  | .gyruss => fun t => t * t * 300

/-- `spiralConfig.types[ty].angleFunction`. -/
def angleFunction : SpiralType → ℝ → ℝ
  | .archimedean => fun t => t * 3
  | .logarithmic => fun t => t * 2
  | .hyperbolic => fun t => t * 4
  | .gyruss => fun t => t * 2.5

/-- One entry of the array returned by `generateSpiralPath`.  Numeric fields
that can be `NaN` are `Option ℝ` (`none` = `NaN`). -/
structure Sample where
  frame : ℕ
  radius : Option ℝ
  angle : Option ℝ
  x : Option ℝ
  y : Option ℝ
  depthFactor : Option ℝ
  scale : Option ℝ
  t : Option ℝ

/-- The loop body of `generateSpiralPath` at iteration `frame`:
`t = frame / duration` (`NaN` when `duration = 0`, since then `frame = 0`),
`radius = startRadius + (targetRadius - startRadius) * radiusFunction(t)`,
`angle = startAngle + angleFunction(t) * 2π`, screen position via
`polarToScreen`, depth/scale via the tunnel system. -/
def mkSample (ty : SpiralType) (startRadius targetRadius startAngle : ℝ)
    (duration : ℤ) (frame : ℕ) : Sample :=
  let t : Option ℝ := if duration = 0 then none else some ((frame : ℝ) / (duration : ℝ))
  let radius : Option ℝ :=
    t.map fun u => startRadius + (targetRadius - startRadius) * radiusFunction ty u
  let angle : Option ℝ := t.map fun u => startAngle + angleFunction ty u * (π * 2)
  { frame := frame
    radius := radius
    angle := angle
    x := jsMap2 (fun r a => (Tunnel.polarToScreen r a).1) radius angle
    y := jsMap2 (fun r a => (Tunnel.polarToScreen r a).2) radius angle
    depthFactor := radius.map Tunnel.calculateDepthFactor
    scale := radius.map Tunnel.calculateSpriteScale
    t := t }

/-- `generateSpiralPath`: the samples for `frame = 0 .. duration`
(empty when `duration < 0`). -/
def generateSpiralPath (ty : SpiralType) (startRadius targetRadius startAngle : ℝ)
    (duration : ℤ) : List Sample :=
  (List.range (duration + 1).toNat).map
    (mkSample ty startRadius targetRadius startAngle duration)

/-- The formation tags switched on by `generateFormationPaths` and
`getFormationAngle`; `other` stands for any unrecognized tag (the `default`
case of the switches). -/
inductive FormationType
  | v
  | line
  | circle
  | diamond
  | other
deriving DecidableEq

/-- The `startAngle` computed for member `i` of a formation of `count`
members in `generateFormationPaths`, before the random offset is added. -/
def formationBaseAngle (ft : FormationType) (i count : ℕ) : ℝ :=
  match ft with
  | .v => ((i : ℝ) / ((count : ℝ) - 1)) * π * 0.6 - π * 0.3
  | .line => ((i : ℝ) / ((count : ℝ) - 1)) * π * 0.8 - π * 0.4
  | .circle => ((i : ℝ) / (count : ℝ)) * π * 2
  | .diamond =>
      if i = 0 then 0
      else if i = 1 then π / 2
      else if i = 2 then π
      else if i = 3 then π * 1.5
      else ((i : ℝ) / (count : ℝ)) * π * 2
  | .other => ((i : ℝ) / (count : ℝ)) * π * 2

/-- The full start angle used by `generateFormationPaths`:
`startAngle += (Math.random() - 0.5) * 0.2`; the random draw (a value in
`[0, 1)`) is passed in as the input `rnd`. -/
def layoutStartAngle (ft : FormationType) (i count : ℕ) (rnd : ℝ) : ℝ :=
  formationBaseAngle ft i count + (rnd - 0.5) * 0.2

end SpiralGen

/-! ## EnhancedEnemyMovement (src/unnamed/part_009)

The per-entity state machine with phases SPIRAL/ORBIT/ATTACK/RETURN/DESTROY.
The entity sprite is an external rendering handle: writes to
`enemyState.sprite` (position mirrors, `sprite.destroy()`,
`updateEnemyVisuals` / `updateEnemyRotation`, which only set sprite scale,
alpha and rotation) do not touch the `EnemyState` fields modelled here and
are omitted.  The spiral generator `this.spiralGenerator.generateSpiralPath`
is a constructor-injected collaborator called with a single start-angle
argument; it is passed in as the `gen` parameter.  `this.orbitConfig` and
`this.attackConfig` (mutable via `setOrbitConfig` / `setAttackConfig`) are
the `MoveConfig` parameter; `enemyState.phaseTiming` is fixed by the
`EnemyState` constructor and appears as the constants below. -/

namespace EnemyMove

/-- The phase strings of part_009 (`this.phases`). -/
inductive Phase
  | SPIRAL
  | ORBIT
  | ATTACK
  | RETURN
  | DESTROY
deriving DecidableEq

/-- A point of the injected spiral path (part_009 reads only `radius` and
`angle` of each path entry). -/
structure PathPoint where
  radius : ℝ
  angle : ℝ

/-- The `EnemyState` fields read or written by the movement functions.
`phaseTiming` and the visual-only fields (`scale`, `alpha`, `sprite`) are
constants respectively sprite-side and are not part of the record. -/
structure EnemyState where
  index : ℕ
  radius : ℝ
  angle : ℝ
  x : ℝ
  y : ℝ
  phase : Phase
  phaseTimer : ℝ
  pathIndex : ℝ
  spiralPath : Option (List PathPoint)
  orbitRadius : ℝ

/-- `phaseTiming.spiralDuration`. -/
def spiralDuration : ℝ := 3000

/-- `phaseTiming.orbitDuration`. -/
def orbitDuration : ℝ := 5000

/-- `phaseTiming.attackDuration`. -/
def attackDuration : ℝ := 4000

/-- `phaseTiming.returnDuration`. -/
def returnDuration : ℝ := 2000

/-- `this.orbitConfig.angularSpeed` and `this.attackConfig`. -/
structure MoveConfig where
  angularSpeed : ℝ
  approachSpeed : ℝ
  curveIntensity : ℝ
  targetRadius : ℝ

/-- The constructor defaults: `angularSpeed 0.02`, `approachSpeed 80`,
`curveIntensity 0.5`, `targetRadius 50`. -/
def defaultMoveConfig : MoveConfig :=
  { angularSpeed := 0.02, approachSpeed := 80, curveIntensity := 0.5, targetRadius := 50 }

/-- `Math.sqrt(Math.pow(x - centerX, 2) + Math.pow(y - centerY, 2))`,
the distance-from-center computation repeated throughout part_009. -/
def currentRadiusOf (x y : ℝ) : ℝ :=
  Real.sqrt ((x - GameConfig.centerX) ^ 2 + (y - GameConfig.centerY) ^ 2)

/-- JS array indexing `path[i]` for an integer `i` (yields `undefined`,
modelled as `none`, when out of range). -/
def jsIndex (l : List PathPoint) (i : ℤ) : Option PathPoint :=
  if i < 0 then none else l.get? i.toNat

/-- `initializeEnemyState(enemy, formationType, index)`: position at the
center with radius 0, phase SPIRAL, timers at 0, spiral path generated with
`startAngle = (index / 8) * 2π`. -/
def initializeEnemyState (gen : ℝ → List PathPoint) (index : ℕ) : EnemyState :=
  { index := index
    radius := 0
    angle := 0
    x := GameConfig.centerX
    y := GameConfig.centerY
    phase := .SPIRAL
    phaseTimer := 0
    pathIndex := 0
    spiralPath := some (gen (((index : ℝ) / 8) * π * 2))
    orbitRadius := 200 }

/-- `updateSpiralPhase`: regenerate the path if missing, transition to ORBIT
(resetting the timer, capturing `orbitRadius = radius || 200`) once the phase
timer reaches `spiralDuration`, otherwise follow the path point at
`Math.floor(pathIndex)` and advance the cursor by
`(path.length / spiralDuration) * deltaTime`. -/
def updateSpiralPhase (gen : ℝ → List PathPoint) (s : EnemyState) (dt : ℝ) : EnemyState :=
  let path := s.spiralPath.getD (gen (((s.index : ℝ) / 8) * π * 2))
  let s0 := { s with spiralPath := some path }
  if spiralDuration ≤ s0.phaseTimer then
    { s0 with phase := .ORBIT
              orbitRadius := if s0.radius = 0 then 200 else s0.radius
              phaseTimer := 0 }
  else if s0.pathIndex < (path.length : ℝ) then
    let s1 :=
      match jsIndex path ⌊s0.pathIndex⌋ with
      | some p =>
          { s0 with x := (Tunnel.polarToScreen p.radius p.angle).1
                    y := (Tunnel.polarToScreen p.radius p.angle).2
                    radius := p.radius
                    angle := p.angle }
      | none => s0
    { s1 with pathIndex := s1.pathIndex + ((path.length : ℝ) / spiralDuration) * dt }
  else s0

/-- `updateOrbitPhase`: transition to ATTACK (timer reset) once the phase
timer reaches `orbitDuration`; otherwise advance the angle by
`angularSpeed * deltaTime * 0.06`, normalize it, and place the entity at
`polarToScreen(orbitRadius, angle)`. -/
def updateOrbitPhase (cfg : MoveConfig) (s : EnemyState) (dt : ℝ) : EnemyState :=
  if orbitDuration ≤ s.phaseTimer then
    { s with phase := .ATTACK, phaseTimer := 0 }
  else
    let a := Tunnel.normalizeAngle (s.angle + cfg.angularSpeed * dt * 0.06)
    { s with angle := a
             x := (Tunnel.polarToScreen s.orbitRadius a).1
             y := (Tunnel.polarToScreen s.orbitRadius a).2 }

/-- `updateAttackPhase`: transition to RETURN (timer reset) when the phase
timer reaches `attackDuration` or the current radius is within
`targetRadius`; otherwise integrate the Cartesian dive toward the center with
the perpendicular curve term, or force RETURN if the distance guard fails. -/
def updateAttackPhase (cfg : MoveConfig) (s : EnemyState) (dt : ℝ) : EnemyState :=
  let currentRadius := currentRadiusOf s.x s.y
  if attackDuration ≤ s.phaseTimer ∨ currentRadius ≤ cfg.targetRadius then
    { s with phase := .RETURN, phaseTimer := 0 }
  else
    let dx := GameConfig.centerX - s.x
    let dy := GameConfig.centerY - s.y
    let distance := Real.sqrt (dx ^ 2 + dy ^ 2)
    if 0 < distance ∧ cfg.targetRadius < distance then
      let moveX := dx / distance * cfg.approachSpeed
      let moveY := dy / distance * cfg.approachSpeed
      let curveX := -dy / distance * cfg.curveIntensity * 20
      let curveY := dx / distance * cfg.curveIntensity * 20
      { s with x := s.x + (moveX + curveX) * (dt / 1000)
               y := s.y + (moveY + curveY) * (dt / 1000) }
    else
      { s with phase := .RETURN, phaseTimer := 0 }

/-- `updateReturnPhase`: DESTROY (no timer reset) when the phase timer
reaches `returnDuration` or the radius exceeds 450; otherwise move radially
outward at 80 px/s. -/
def updateReturnPhase (s : EnemyState) (dt : ℝ) : EnemyState :=
  if returnDuration ≤ s.phaseTimer then
    { s with phase := .DESTROY }
  else if 450 < currentRadiusOf s.x s.y then
    { s with phase := .DESTROY }
  else
    let dx := s.x - GameConfig.centerX
    let dy := s.y - GameConfig.centerY
    let distance := Real.sqrt (dx ^ 2 + dy ^ 2)
    if 0 < distance then
      { s with x := s.x + dx / distance * 80 * (dt / 1000)
               y := s.y + dy / distance * 80 * (dt / 1000) }
    else s

/-- `applyBoundsChecking(enemyState, prevX, prevY)`: clamp the position onto
the circle of radius 500 when it lies beyond it (and DESTROY, without timer
reset, if already in RETURN); then, if the position is outside the screen
plus a 50px margin, restore the previous position and force RETURN — again
without resetting the phase timer. -/
def applyBoundsChecking (s : EnemyState) (prevX prevY : ℝ) : EnemyState :=
  let s1 :=
    if 500 < currentRadiusOf s.x s.y then
      let a := atan2 (s.y - GameConfig.centerY) (s.x - GameConfig.centerX)
      let s' := { s with x := GameConfig.centerX + Real.cos a * 500
                         y := GameConfig.centerY + Real.sin a * 500 }
      if s'.phase = .RETURN then { s' with phase := .DESTROY } else s'
    else s
  if s1.x < -50 ∨ GameConfig.width + 50 < s1.x ∨
      s1.y < -50 ∨ GameConfig.height + 50 < s1.y then
    let s2 := { s1 with x := prevX, y := prevY }
    if s2.phase ≠ .RETURN then { s2 with phase := .RETURN } else s2
  else s1

/-- `updateEnemyMovement(enemyState, deltaTime)`: remember the previous
position, accumulate the phase timer, dispatch on the phase (the switch has
no DESTROY case), then apply bounds checking.  The trailing
`updateEnemyVisuals` call writes only sprite visual properties. -/
def updateEnemyMovement (cfg : MoveConfig) (gen : ℝ → List PathPoint)
    (s : EnemyState) (dt : ℝ) : EnemyState :=
  let prevX := s.x
  let prevY := s.y
  let s1 := { s with phaseTimer := s.phaseTimer + dt }
  let s2 :=
    match s1.phase with
    | .SPIRAL => updateSpiralPhase gen s1 dt
    | .ORBIT => updateOrbitPhase cfg s1 dt
    | .ATTACK => updateAttackPhase cfg s1 dt
    | .RETURN => updateReturnPhase s1 dt
    | .DESTROY => s1
  applyBoundsChecking s2 prevX prevY

/-- `forceAttack(enemyState)`: ORBIT entities jump to ATTACK with the timer
reset; any other phase is left untouched. -/
def forceAttack (s : EnemyState) : EnemyState :=
  if s.phase = .ORBIT then { s with phase := .ATTACK, phaseTimer := 0 } else s

/-- States (under the default configuration) for which a zero-delta tick is
observably the identity: the entity is in ORBIT, ATTACK or RETURN, its
pending transition condition is not already met, its stored screen position
is consistent with its polar drive, and it sits inside the safety bounds.
This is the guard of the amended claim C4. -/
def zeroDeltaSafe (s : EnemyState) : Prop :=
  (s.phase = .ORBIT ∧ s.phaseTimer < orbitDuration ∧
    0 ≤ s.angle ∧ s.angle < 2 * π ∧
    0 ≤ s.orbitRadius ∧ s.orbitRadius ≤ 350 ∧
    s.x = (Tunnel.polarToScreen s.orbitRadius s.angle).1 ∧
    s.y = (Tunnel.polarToScreen s.orbitRadius s.angle).2) ∨
  (s.phase = .ATTACK ∧ s.phaseTimer < attackDuration ∧
    50 < currentRadiusOf s.x s.y ∧ currentRadiusOf s.x s.y ≤ 500 ∧
    -50 ≤ s.x ∧ s.x ≤ 850 ∧ -50 ≤ s.y ∧ s.y ≤ 650) ∨
  (s.phase = .RETURN ∧ s.phaseTimer < returnDuration ∧
    currentRadiusOf s.x s.y ≤ 450 ∧
    -50 ≤ s.x ∧ s.x ≤ 850 ∧ -50 ≤ s.y ∧ s.y ≤ 650)

end EnemyMove

/-! ## EnhancedEnemyMovement (src/js/EnhancedEnemyMovement.js), SPAWN branch

The second implementation of the movement system.  Its `updateEnemyMovement`
accumulates `totalTime` and dispatches on the phase; entities start in phase
`spawn` and `updateSpawnPhase` immediately places them at the center,
computes the formation start angle, generates the spiral path and moves them
to phase `spiral` with `phaseStartTime = totalTime` (the phase timer of this
variant is the difference `totalTime - phaseStartTime`).  The claims touching
this file concern the SPAWN branch and `getFormationAngle`; the remaining
phase branches of this variant are settled against the part_009
implementation above and are not re-embedded. -/

namespace EnemyMoveJS

/-- `this.phases` of the js variant. -/
inductive Phase
  | SPAWN
  | SPIRAL
  | ORBIT
  | ATTACK
  | RETURN
  | DESTROY
deriving DecidableEq

/-- The state fields touched by the SPAWN branch (`updateSpawnPhase` plus the
`updateEnemyVisuals` epilogue).  `enemy.x`/`enemy.y` are the sprite position
the branch writes; `spiral.duration` is fixed at 180 frames and
`orbit.targetRadius` at 200 by `initializeEnemyState`. -/
structure StateJ where
  formationType : SpiralGen.FormationType
  formationIndex : ℕ
  phase : Phase
  x : ℝ
  y : ℝ
  radius : ℝ
  angle : ℝ
  radiusSpeed : ℝ
  angleSpeed : ℝ
  scale : ℝ
  rotation : ℝ
  spiralPath : Option (List SpiralGen.Sample)
  spiralDuration : ℤ
  orbitTargetRadius : ℝ
  phaseStartTime : ℝ
  totalTime : ℝ

/-- `getFormationAngle(formationType, index)` (the js variant; note the
`circle` case divides by 7, not by the member count). -/
def getFormationAngle (ft : SpiralGen.FormationType) (i : ℕ) : ℝ :=
  match ft with
  | .v => ((i : ℝ) / 4) * π * 0.6 - π * 0.3
  | .line => ((i : ℝ) / 5) * π * 0.8 - π * 0.4
  | .circle => ((i : ℝ) / 7) * π * 2
  | .diamond => ((i : ℝ) / 4) * π / 2
  | .other => ((i : ℝ) / 5) * π * 0.8 - π * 0.4

/-- `updateSpawnPhase(enemyState, deltaTime)`: position at the center, angle
from `getFormationAngle`, spiral path from
`generateSpiralPath('gyruss', 0, orbit.targetRadius, startAngle,
spiral.duration)`, then transition to SPIRAL with
`phaseStartTime = totalTime`.  `deltaTime` is not read by the body. -/
def updateSpawnPhase (s : StateJ) (_dt : ℝ) : StateJ :=
  let startAngle := getFormationAngle s.formationType s.formationIndex
  { s with x := GameConfig.centerX
           y := GameConfig.centerY
           angle := startAngle
           spiralPath := some (SpiralGen.generateSpiralPath .gyruss 0
             s.orbitTargetRadius startAngle s.spiralDuration)
           phase := .SPIRAL
           phaseStartTime := s.totalTime }

/-- `updateEnemyVisuals`: scale from the tunnel system, rotation toward the
movement direction when the polar speeds are nonzero. -/
def updateEnemyVisuals (s : StateJ) : StateJ :=
  let s1 := { s with scale := Tunnel.calculateSpriteScale s.radius }
  if s1.radiusSpeed ≠ 0 ∨ s1.angleSpeed ≠ 0 then
    { s1 with rotation := atan2 s1.angleSpeed s1.radiusSpeed + π / 2 + π }
  else s1

/-- The SPAWN case of `updateEnemyMovement(enemyState, deltaTime)`:
`totalTime += deltaTime`, then `updateSpawnPhase`, then
`updateEnemyVisuals`. -/
def advanceSpawn (s : StateJ) (dt : ℝ) : StateJ :=
  updateEnemyVisuals (updateSpawnPhase { s with totalTime := s.totalTime + dt } dt)

end EnemyMoveJS

/-! ## Helper lemmas -/

/-- Distance from the center of a point placed by `polarToScreen`. -/
theorem currentRadiusOf_polar (r a : ℝ) (h : 0 ≤ r) :
    EnemyMove.currentRadiusOf (GameConfig.centerX + r * Real.cos a)
      (GameConfig.centerY + r * Real.sin a) = r := by
  have h1 : (GameConfig.centerX + r * Real.cos a - GameConfig.centerX) ^ 2 +
      (GameConfig.centerY + r * Real.sin a - GameConfig.centerY) ^ 2 = r ^ 2 := by
    have hs := Real.sin_sq_add_cos_sq a
    ring_nf
    nlinarith [hs]
  rw [EnemyMove.currentRadiusOf, h1, Real.sqrt_sq h]

/-- `normalizeAngle` fixes angles already in `[0, 2π)`. -/
theorem normalizeAngle_eq_self {a : ℝ} (h0 : 0 ≤ a) (h1 : a < 2 * π) :
    Tunnel.normalizeAngle a = a := by
  have h2 : (0 : ℝ) < 2 * π := by positivity
  have hdiv0 : 0 ≤ a / (2 * π) := div_nonneg h0 h2.le
  have hdiv1 : a / (2 * π) < 1 := (div_lt_one h2).mpr h1
  have htr : jsTrunc (a / (2 * π)) = 0 := by
    rw [jsTrunc, if_pos hdiv0, Int.floor_eq_zero_iff]
    exact ⟨hdiv0, hdiv1⟩
  rw [Tunnel.normalizeAngle, jsMod, htr]
  simp only [Int.cast_zero, mul_zero, sub_zero]
  rw [if_neg (not_lt.mpr h0)]

/-- C10: `forceAttack` leaves any non-ORBIT state completely unchanged, and
sends an ORBIT state to ATTACK with the phase timer reset to 0 and every
other field (position included) untouched. -/
theorem forceAttack_frame (s : EnemyMove.EnemyState) :
    (s.phase ≠ .ORBIT → EnemyMove.forceAttack s = s) ∧
    (s.phase = .ORBIT →
      EnemyMove.forceAttack s = { s with phase := .ATTACK, phaseTimer := 0 }) := by
  constructor
  · intro h
    simp [EnemyMove.forceAttack, h]
  · intro h
    simp [EnemyMove.forceAttack, h]

/-- Witness for `forceAttack_frame` at concrete states in phase ATTACK and
phase ORBIT. -/
theorem forceAttack_frame_witness :
    EnemyMove.forceAttack
        { index := 0, radius := 120, angle := 1, x := 430, y := 300,
          phase := .ATTACK, phaseTimer := 7, pathIndex := 0,
          spiralPath := none, orbitRadius := 200 } =
      { index := 0, radius := 120, angle := 1, x := 430, y := 300,
        phase := .ATTACK, phaseTimer := 7, pathIndex := 0,
        spiralPath := none, orbitRadius := 200 } ∧
    EnemyMove.forceAttack
        { index := 1, radius := 200, angle := 1, x := 430, y := 300,
          phase := .ORBIT, phaseTimer := 7, pathIndex := 0,
          spiralPath := none, orbitRadius := 200 } =
      { index := 1, radius := 200, angle := 1, x := 430, y := 300,
        phase := .ATTACK, phaseTimer := 0, pathIndex := 0,
        spiralPath := none, orbitRadius := 200 } := by
  constructor
  · exact (forceAttack_frame _).1 (by simp)
  · exact (forceAttack_frame _).2 rfl

/-- C2: an attack-phase step transitions to RETURN with the phase timer
reset whenever the current radius is at most `targetRadius` (regardless of
the timer) or the phase timer has reached `attackDuration` (regardless of
the radius). -/
theorem updateAttackPhase_to_return (cfg : EnemyMove.MoveConfig)
    (s : EnemyMove.EnemyState) (dt : ℝ)
    (h : EnemyMove.currentRadiusOf s.x s.y ≤ cfg.targetRadius ∨
         EnemyMove.attackDuration ≤ s.phaseTimer) :
    (EnemyMove.updateAttackPhase cfg s dt).phase = .RETURN ∧
    (EnemyMove.updateAttackPhase cfg s dt).phaseTimer = 0 := by
  rw [EnemyMove.updateAttackPhase]
  simp only []
  rw [if_pos h.symm]
  exact ⟨rfl, rfl⟩

/-- Witness for `updateAttackPhase_to_return`: a state at radius 30 ≤ 50
with the timer far from elapsed still transitions to RETURN. -/
theorem updateAttackPhase_to_return_witness :
    (EnemyMove.updateAttackPhase EnemyMove.defaultMoveConfig
        { index := 0, radius := 30, angle := 0, x := 430, y := 300,
          phase := .ATTACK, phaseTimer := 100, pathIndex := 0,
          spiralPath := none, orbitRadius := 200 } 16).phase = .RETURN ∧
    (EnemyMove.updateAttackPhase EnemyMove.defaultMoveConfig
        { index := 0, radius := 30, angle := 0, x := 430, y := 300,
          phase := .ATTACK, phaseTimer := 100, pathIndex := 0,
          spiralPath := none, orbitRadius := 200 } 16).phaseTimer = 0 := by
  refine updateAttackPhase_to_return _ _ _ (Or.inl ?_)
  show EnemyMove.currentRadiusOf 430 300 ≤ EnemyMove.defaultMoveConfig.targetRadius
  have h1 : EnemyMove.currentRadiusOf 430 300 = 30 := by
    rw [EnemyMove.currentRadiusOf, GameConfig.centerX, GameConfig.centerY]
    rw [show ((430 : ℝ) - 400) ^ 2 + ((300 : ℝ) - 300) ^ 2 = 30 ^ 2 by norm_num]
    rw [Real.sqrt_sq (by norm_num)]
  rw [h1, EnemyMove.defaultMoveConfig]
  norm_num

/-- A spiral step either keeps the phase or transitions to ORBIT with the
timer reset. -/
theorem updateSpiralPhase_cases (gen : ℝ → List EnemyMove.PathPoint)
    (s : EnemyMove.EnemyState) (dt : ℝ) :
    (EnemyMove.updateSpiralPhase gen s dt).phase = s.phase ∨
    ((EnemyMove.updateSpiralPhase gen s dt).phase = .ORBIT ∧
     (EnemyMove.updateSpiralPhase gen s dt).phaseTimer = 0) := by
  rw [EnemyMove.updateSpiralPhase]
  simp only []
  split
  · right; exact ⟨rfl, rfl⟩
  · split
    · split
      · left; rfl
      · left; rfl
    · left; rfl

/-- An orbit step either keeps the phase or transitions to ATTACK with the
timer reset. -/
theorem updateOrbitPhase_cases (cfg : EnemyMove.MoveConfig)
    (s : EnemyMove.EnemyState) (dt : ℝ) :
    (EnemyMove.updateOrbitPhase cfg s dt).phase = s.phase ∨
    ((EnemyMove.updateOrbitPhase cfg s dt).phase = .ATTACK ∧
     (EnemyMove.updateOrbitPhase cfg s dt).phaseTimer = 0) := by
  rw [EnemyMove.updateOrbitPhase]
  simp only []
  split
  · right; exact ⟨rfl, rfl⟩
  · left; rfl

/-- An attack step either keeps the phase or transitions to RETURN with the
timer reset. -/
theorem updateAttackPhase_cases (cfg : EnemyMove.MoveConfig)
    (s : EnemyMove.EnemyState) (dt : ℝ) :
    (EnemyMove.updateAttackPhase cfg s dt).phase = s.phase ∨
    ((EnemyMove.updateAttackPhase cfg s dt).phase = .RETURN ∧
     (EnemyMove.updateAttackPhase cfg s dt).phaseTimer = 0) := by
  rw [EnemyMove.updateAttackPhase]
  simp only []
  split
  · right; exact ⟨rfl, rfl⟩
  · split
    · left; rfl
    · right; exact ⟨rfl, rfl⟩

/-- C1 (amended): the phase transitions performed inside the phase-update
functions (Spiral→Orbit, Orbit→Attack, Attack→Return) and by `forceAttack`
always reset the phase timer to 0 in the same step.  (The Return→Destroy
transition and the forced Return of the bounds-safety pass do NOT reset the
timer — see the counterexample — and exactly one phase is active at any
moment by construction, the phase being a single value of a closed
enumeration.) -/
theorem inner_transitions_reset_timer (cfg : EnemyMove.MoveConfig)
    (gen : ℝ → List EnemyMove.PathPoint) (s : EnemyMove.EnemyState) (dt : ℝ) :
    ((EnemyMove.updateSpiralPhase gen s dt).phase ≠ s.phase →
      (EnemyMove.updateSpiralPhase gen s dt).phaseTimer = 0) ∧
    ((EnemyMove.updateOrbitPhase cfg s dt).phase ≠ s.phase →
      (EnemyMove.updateOrbitPhase cfg s dt).phaseTimer = 0) ∧
    ((EnemyMove.updateAttackPhase cfg s dt).phase ≠ s.phase →
      (EnemyMove.updateAttackPhase cfg s dt).phaseTimer = 0) ∧
    ((EnemyMove.forceAttack s).phase ≠ s.phase →
      (EnemyMove.forceAttack s).phaseTimer = 0) := by
  refine ⟨?_, ?_, ?_, ?_⟩
  · intro h
    rcases updateSpiralPhase_cases gen s dt with hc | hc
    · exact absurd hc h
    · exact hc.2
  · intro h
    rcases updateOrbitPhase_cases cfg s dt with hc | hc
    · exact absurd hc h
    · exact hc.2
  · intro h
    rcases updateAttackPhase_cases cfg s dt with hc | hc
    · exact absurd hc h
    · exact hc.2
  · intro h
    rw [EnemyMove.forceAttack] at h ⊢
    split at h
    · rw [if_pos (by assumption)]
    · exact absurd rfl h

/-- Witness for `inner_transitions_reset_timer`: concrete states whose
timers have elapsed, so each of the four transitions fires and each reset
conclusion is obtained from the theorem. -/
theorem inner_transitions_reset_timer_witness :
    (EnemyMove.updateSpiralPhase (fun _ => [])
        { index := 0, radius := 0, angle := 0, x := 400, y := 300,
          phase := .SPIRAL, phaseTimer := 3000, pathIndex := 0,
          spiralPath := some [], orbitRadius := 200 } 16).phaseTimer = 0 ∧
    (EnemyMove.updateOrbitPhase EnemyMove.defaultMoveConfig
        { index := 0, radius := 200, angle := 0, x := 600, y := 300,
          phase := .ORBIT, phaseTimer := 5000, pathIndex := 0,
          spiralPath := some [], orbitRadius := 200 } 16).phaseTimer = 0 ∧
    (EnemyMove.updateAttackPhase EnemyMove.defaultMoveConfig
        { index := 0, radius := 200, angle := 0, x := 600, y := 300,
          phase := .ATTACK, phaseTimer := 4000, pathIndex := 0,
          spiralPath := some [], orbitRadius := 200 } 16).phaseTimer = 0 ∧
    (EnemyMove.forceAttack
        { index := 0, radius := 200, angle := 0, x := 600, y := 300,
          phase := .ORBIT, phaseTimer := 700, pathIndex := 0,
          spiralPath := some [], orbitRadius := 200 }).phaseTimer = 0 := by
  refine ⟨?_, ?_, ?_, ?_⟩
  · refine (inner_transitions_reset_timer EnemyMove.defaultMoveConfig
      (fun _ => []) _ 16).1 ?_
    rw [EnemyMove.updateSpiralPhase]
    simp only []
    rw [if_pos (by rw [EnemyMove.spiralDuration])]
    simp
  · refine (inner_transitions_reset_timer EnemyMove.defaultMoveConfig
      (fun _ => []) _ 16).2.1 ?_
    rw [EnemyMove.updateOrbitPhase]
    simp only []
    rw [if_pos (by rw [EnemyMove.orbitDuration])]
    simp
  · refine (inner_transitions_reset_timer EnemyMove.defaultMoveConfig
      (fun _ => []) _ 16).2.2.1 ?_
    rw [EnemyMove.updateAttackPhase]
    simp only []
    rw [if_pos (Or.inl (by rw [EnemyMove.attackDuration]))]
    simp
  · refine (inner_transitions_reset_timer EnemyMove.defaultMoveConfig
      (fun _ => []) _ 16).2.2.2 ?_
    rw [EnemyMove.forceAttack]
    rw [if_pos rfl]
    simp

/-- Counterexample to C1 as stated: an ATTACK entity sitting at
`(-200, 300)` (600 px from the center and off-screen) is forced into RETURN
by the bounds-safety pass of `updateEnemyMovement`, but its phase timer is
left at 100 instead of being reset to 0. -/
theorem bounds_forced_return_keeps_timer :
    ({ index := 0, radius := 250, angle := 0, x := -200, y := 300,
       phase := .ATTACK, phaseTimer := 100, pathIndex := 0,
       spiralPath := none, orbitRadius := 200 } : EnemyMove.EnemyState).phase
        = .ATTACK ∧
    (EnemyMove.updateEnemyMovement EnemyMove.defaultMoveConfig (fun _ => [])
        { index := 0, radius := 250, angle := 0, x := -200, y := 300,
          phase := .ATTACK, phaseTimer := 100, pathIndex := 0,
          spiralPath := none, orbitRadius := 200 } 0).phase = .RETURN ∧
    (EnemyMove.updateEnemyMovement EnemyMove.defaultMoveConfig (fun _ => [])
        { index := 0, radius := 250, angle := 0, x := -200, y := 300,
          phase := .ATTACK, phaseTimer := 100, pathIndex := 0,
          spiralPath := none, orbitRadius := 200 } 0).phaseTimer = 100 ∧
    (100 : ℝ) ≠ 0 := by
  have hs360 : Real.sqrt 360000 = 600 := by
    rw [show (360000 : ℝ) = 600 ^ 2 by norm_num, Real.sqrt_sq (by norm_num)]
  have harg : atan2 0 (-600) = π := by
    rw [atan2]
    rw [show (⟨-600, 0⟩ : ℂ) = ((-600 : ℝ) : ℂ) by apply Complex.ext <;> simp]
    exact Complex.arg_ofReal_of_neg (by norm_num)
  have hAR : (EnemyMove.Phase.ATTACK = EnemyMove.Phase.RETURN) = False :=
    eq_false (by decide)
  refine ⟨rfl, ?_, ?_, by norm_num⟩ <;>
    norm_num [EnemyMove.updateEnemyMovement, EnemyMove.updateAttackPhase,
      EnemyMove.applyBoundsChecking, EnemyMove.currentRadiusOf,
      EnemyMove.defaultMoveConfig, EnemyMove.attackDuration,
      GameConfig.centerX, GameConfig.centerY, GameConfig.width,
      GameConfig.height, hs360, harg, hAR, Real.cos_pi, Real.sin_pi]

/-- The bounds pass leaves a state untouched when it is within the 500px
circle and inside the screen margins. -/
theorem applyBounds_id (s : EnemyMove.EnemyState) (prevX prevY : ℝ)
    (hr : EnemyMove.currentRadiusOf s.x s.y ≤ 500)
    (hx1 : -50 ≤ s.x) (hx2 : s.x ≤ 850) (hy1 : -50 ≤ s.y) (hy2 : s.y ≤ 650) :
    EnemyMove.applyBoundsChecking s prevX prevY = s := by
  have hc1 : (500 < EnemyMove.currentRadiusOf s.x s.y) = False :=
    eq_false (not_lt.mpr hr)
  have hc2 : (s.x < (-50 : ℝ)) = False := eq_false (not_lt.mpr hx1)
  have hc3 : (GameConfig.width + 50 < s.x) = False := by
    rw [GameConfig.width]
    exact eq_false (not_lt.mpr (by linarith))
  have hc4 : (s.y < (-50 : ℝ)) = False := eq_false (not_lt.mpr hy1)
  have hc5 : (GameConfig.height + 50 < s.y) = False := by
    rw [GameConfig.height]
    exact eq_false (not_lt.mpr (by linarith))
  rw [EnemyMove.applyBoundsChecking]
  simp only [hc1, hc2, hc3, hc4, hc5, if_false, or_self, or_false, false_or]

/-- An ORBIT step with `deltaTime = 0` is the identity when the timer has
not elapsed, the angle is already normalized, and the position agrees with
`polarToScreen(orbitRadius, angle)`. -/
theorem updateOrbitPhase_zero_id (cfg : EnemyMove.MoveConfig)
    (s : EnemyMove.EnemyState)
    (hto : s.phaseTimer < EnemyMove.orbitDuration)
    (ha0 : 0 ≤ s.angle) (ha1 : s.angle < 2 * π)
    (hx : s.x = (Tunnel.polarToScreen s.orbitRadius s.angle).1)
    (hy : s.y = (Tunnel.polarToScreen s.orbitRadius s.angle).2) :
    EnemyMove.updateOrbitPhase cfg s 0 = s := by
  rw [EnemyMove.updateOrbitPhase]
  simp only []
  rw [if_neg (not_le.mpr hto)]
  have hang : s.angle + cfg.angularSpeed * 0 * 0.06 = s.angle := by ring
  rw [hang, normalizeAngle_eq_self ha0 ha1, ← hx, ← hy]

/-- An ATTACK step with `deltaTime = 0` is the identity when neither
transition condition holds. -/
theorem updateAttackPhase_zero_id (cfg : EnemyMove.MoveConfig)
    (s : EnemyMove.EnemyState)
    (htr : 0 ≤ cfg.targetRadius)
    (hto : s.phaseTimer < EnemyMove.attackDuration)
    (hgt : cfg.targetRadius < EnemyMove.currentRadiusOf s.x s.y) :
    EnemyMove.updateAttackPhase cfg s 0 = s := by
  rw [EnemyMove.updateAttackPhase]
  simp only []
  rw [if_neg (by push_neg; exact ⟨hto, hgt⟩)]
  have hdist : Real.sqrt ((GameConfig.centerX - s.x) ^ 2 +
      (GameConfig.centerY - s.y) ^ 2) = EnemyMove.currentRadiusOf s.x s.y := by
    rw [EnemyMove.currentRadiusOf]
    congr 1
    ring
  rw [hdist]
  rw [if_pos ⟨lt_of_le_of_lt htr hgt, hgt⟩]
  have hx0 : s.x + ((GameConfig.centerX - s.x) / EnemyMove.currentRadiusOf s.x s.y *
      cfg.approachSpeed + -(GameConfig.centerY - s.y) / EnemyMove.currentRadiusOf s.x s.y *
      cfg.curveIntensity * 20) * (0 / 1000) = s.x := by ring
  have hy0 : s.y + ((GameConfig.centerY - s.y) / EnemyMove.currentRadiusOf s.x s.y *
      cfg.approachSpeed + (GameConfig.centerX - s.x) / EnemyMove.currentRadiusOf s.x s.y *
      cfg.curveIntensity * 20) * (0 / 1000) = s.y := by ring
  rw [hx0, hy0]

/-- A RETURN step with `deltaTime = 0` is the identity when neither destroy
condition holds. -/
theorem updateReturnPhase_zero_id (s : EnemyMove.EnemyState)
    (hto : s.phaseTimer < EnemyMove.returnDuration)
    (hr : EnemyMove.currentRadiusOf s.x s.y ≤ 450) :
    EnemyMove.updateReturnPhase s 0 = s := by
  rw [EnemyMove.updateReturnPhase]
  simp only []
  rw [if_neg (not_le.mpr hto)]
  rw [if_neg (not_lt.mpr (by rw [EnemyMove.currentRadiusOf] at hr; exact hr))]
  split
  · have hx0 : s.x + (s.x - GameConfig.centerX) /
        Real.sqrt ((s.x - GameConfig.centerX) ^ 2 + (s.y - GameConfig.centerY) ^ 2) *
        80 * (0 / 1000) = s.x := by ring
    have hy0 : s.y + (s.y - GameConfig.centerY) /
        Real.sqrt ((s.x - GameConfig.centerX) ^ 2 + (s.y - GameConfig.centerY) ^ 2) *
        80 * (0 / 1000) = s.y := by ring
    rw [hx0, hy0]
  · rfl

/-- C4 (amended): under the default configuration, a zero-delta tick leaves
an entity completely unchanged (phase, polar position, screen position and
phase timer included) provided the entity is in ORBIT, ATTACK or RETURN with
its transition condition not already met, a consistent position, and a
position inside the safety bounds (`zeroDeltaSafe`).  The claim fails as
stated for arbitrary live states: the SPIRAL branch rewrites the polar
fields from the stored path even when `deltaTime = 0` (see the
counterexample), and the js variant moves SPAWN entities to SPIRAL
unconditionally (claim C3). -/
theorem zero_delta_advance_identity (gen : ℝ → List EnemyMove.PathPoint)
    (s : EnemyMove.EnemyState) (h : EnemyMove.zeroDeltaSafe s) :
    EnemyMove.updateEnemyMovement EnemyMove.defaultMoveConfig gen s 0 = s := by
  obtain ⟨idx, r, a, x, y, ph, pt, pi, sp, orad⟩ := s
  dsimp only [EnemyMove.zeroDeltaSafe] at h
  rcases h with ⟨hph, hto, ha0, ha1, hr0, hr1, hx, hy⟩ |
    ⟨hph, hto, hgt, hr2, hx1, hx2, hy1, hy2⟩ |
    ⟨hph, hto, hr, hx1, hx2, hy1, hy2⟩ <;> subst hph
  · -- ORBIT
    have hx' : x = 400 + orad * Real.cos a := by
      rw [hx]; simp [Tunnel.polarToScreen, GameConfig.centerX]
    have hy' : y = 300 + orad * Real.sin a := by
      rw [hy]; simp [Tunnel.polarToScreen, GameConfig.centerY]
    have hcos1 : orad * Real.cos a ≤ orad := by nlinarith [Real.cos_le_one a]
    have hcos2 : -orad ≤ orad * Real.cos a := by nlinarith [Real.neg_one_le_cos a]
    have hsin1 : orad * Real.sin a ≤ orad := by nlinarith [Real.sin_le_one a]
    have hsin2 : -orad ≤ orad * Real.sin a := by nlinarith [Real.neg_one_le_sin a]
    have hcur : EnemyMove.currentRadiusOf x y = orad := by
      rw [hx, hy]
      simp only [Tunnel.polarToScreen]
      exact currentRadiusOf_polar orad a hr0
    rw [EnemyMove.updateEnemyMovement]
    simp only [add_zero]
    rw [updateOrbitPhase_zero_id _ _ hto ha0 ha1 hx hy]
    exact applyBounds_id _ _ _ (by dsimp only; rw [hcur]; linarith)
      (by dsimp only; rw [hx']; linarith) (by dsimp only; rw [hx']; linarith)
      (by dsimp only; rw [hy']; linarith) (by dsimp only; rw [hy']; linarith)
  · -- ATTACK
    rw [EnemyMove.updateEnemyMovement]
    simp only [add_zero]
    rw [updateAttackPhase_zero_id _ _ (by norm_num [EnemyMove.defaultMoveConfig])
      hto (by rw [EnemyMove.defaultMoveConfig]; exact hgt)]
    exact applyBounds_id _ _ _ (by dsimp only; linarith) hx1 hx2 hy1 hy2
  · -- RETURN
    rw [EnemyMove.updateEnemyMovement]
    simp only [add_zero]
    rw [updateReturnPhase_zero_id ⟨idx, r, a, x, y, .RETURN, pt, pi, sp, orad⟩ hto hr]
    exact applyBounds_id _ _ _ (by dsimp only; linarith) hx1 hx2 hy1 hy2

/-- Witness for `zero_delta_advance_identity`: an orbiting entity at radius
200, angle 0, screen position (600, 300) is untouched by a zero-delta
tick. -/
theorem zero_delta_advance_identity_witness :
    EnemyMove.updateEnemyMovement EnemyMove.defaultMoveConfig (fun _ => [])
        { index := 0, radius := 200, angle := 0, x := 600, y := 300,
          phase := .ORBIT, phaseTimer := 0, pathIndex := 0,
          spiralPath := none, orbitRadius := 200 } 0 =
      { index := 0, radius := 200, angle := 0, x := 600, y := 300,
        phase := .ORBIT, phaseTimer := 0, pathIndex := 0,
        spiralPath := none, orbitRadius := 200 } := by
  refine zero_delta_advance_identity _ _ (Or.inl ⟨rfl, ?_, le_refl 0, ?_, ?_, ?_, ?_, ?_⟩)
  · rw [EnemyMove.orbitDuration]; norm_num
  · positivity
  · norm_num
  · norm_num
  · simp [Tunnel.polarToScreen, GameConfig.centerX]; norm_num
  · simp [Tunnel.polarToScreen, GameConfig.centerY]

/-- Counterexample to C4 as stated: a freshly initialized entity with
formation index 1 (polar angle 0) has its angle overwritten with the spiral
path's start angle π/4 by a tick with `deltaTimeMs = 0` — the zero-delta
advance is not the identity on the polar position. -/
theorem zero_delta_changes_fresh_spiral_angle :
    (EnemyMove.updateEnemyMovement EnemyMove.defaultMoveConfig
        (fun a => [{ radius := 0, angle := a }])
        (EnemyMove.initializeEnemyState (fun a => [{ radius := 0, angle := a }]) 1)
        0).angle ≠
      (EnemyMove.initializeEnemyState (fun a => [{ radius := 0, angle := a }]) 1).angle := by
  have hpi := Real.pi_pos
  norm_num [EnemyMove.updateEnemyMovement, EnemyMove.updateSpiralPhase,
    EnemyMove.initializeEnemyState, EnemyMove.jsIndex, EnemyMove.spiralDuration,
    EnemyMove.applyBoundsChecking, EnemyMove.currentRadiusOf,
    Tunnel.polarToScreen, GameConfig.centerX, GameConfig.centerY,
    GameConfig.width, GameConfig.height]
  intro hcontra
  nlinarith [hcontra, hpi]

/-- C3: a spawn-phase entity (at the center with radius 0) transitions to
SPIRAL in the very tick that processes it, for every `deltaTime` (including
0), storing the generated spiral trajectory and leaving the elapsed-in-phase
time (`totalTime - phaseStartTime`) at 0. -/
theorem spawn_transitions_to_spiral (s : EnemyMoveJS.StateJ) (dt : ℝ)
    (hph : s.phase = .SPAWN) (hr : s.radius = 0)
    (hx : s.x = GameConfig.centerX) (hy : s.y = GameConfig.centerY) :
    (EnemyMoveJS.advanceSpawn s dt).phase = .SPIRAL ∧
    (EnemyMoveJS.advanceSpawn s dt).spiralPath =
      some (SpiralGen.generateSpiralPath .gyruss 0 s.orbitTargetRadius
        (EnemyMoveJS.getFormationAngle s.formationType s.formationIndex)
        s.spiralDuration) ∧
    (EnemyMoveJS.advanceSpawn s dt).totalTime -
      (EnemyMoveJS.advanceSpawn s dt).phaseStartTime = 0 := by
  rw [EnemyMoveJS.advanceSpawn, EnemyMoveJS.updateSpawnPhase,
    EnemyMoveJS.updateEnemyVisuals]
  simp only []
  split <;> exact ⟨rfl, rfl, sub_self _⟩

/-- Witness for `spawn_transitions_to_spiral`: a concrete freshly spawned
entity advanced with `deltaTime = 0`. -/
theorem spawn_transitions_to_spiral_witness :
    (EnemyMoveJS.advanceSpawn
        { formationType := .circle, formationIndex := 0, phase := .SPAWN,
          x := 400, y := 300, radius := 0, angle := 0, radiusSpeed := 0,
          angleSpeed := 0, scale := 1, rotation := 0, spiralPath := none,
          spiralDuration := 180, orbitTargetRadius := 200,
          phaseStartTime := 0, totalTime := 0 } 0).phase = .SPIRAL ∧
    (EnemyMoveJS.advanceSpawn
        { formationType := .circle, formationIndex := 0, phase := .SPAWN,
          x := 400, y := 300, radius := 0, angle := 0, radiusSpeed := 0,
          angleSpeed := 0, scale := 1, rotation := 0, spiralPath := none,
          spiralDuration := 180, orbitTargetRadius := 200,
          phaseStartTime := 0, totalTime := 0 } 0).spiralPath =
      some (SpiralGen.generateSpiralPath .gyruss 0 200
        (EnemyMoveJS.getFormationAngle .circle 0) 180) ∧
    (EnemyMoveJS.advanceSpawn
        { formationType := .circle, formationIndex := 0, phase := .SPAWN,
          x := 400, y := 300, radius := 0, angle := 0, radiusSpeed := 0,
          angleSpeed := 0, scale := 1, rotation := 0, spiralPath := none,
          spiralDuration := 180, orbitTargetRadius := 200,
          phaseStartTime := 0, totalTime := 0 } 0).totalTime -
      (EnemyMoveJS.advanceSpawn
        { formationType := .circle, formationIndex := 0, phase := .SPAWN,
          x := 400, y := 300, radius := 0, angle := 0, radiusSpeed := 0,
          angleSpeed := 0, scale := 1, rotation := 0, spiralPath := none,
          spiralDuration := 180, orbitTargetRadius := 200,
          phaseStartTime := 0, totalTime := 0 } 0).phaseStartTime = 0 :=
  spawn_transitions_to_spiral _ 0 rfl rfl rfl rfl

/-- C5 (amended): the polar→screen→polar round trip recovers the radius
exactly, and for positive radius it recovers the angle only up to an integer
multiple of 2π — `screenToPolar` returns the `atan2` value in `(-π, π]`, not
the `normalizeAngle` representative in `[0, 2π)`. -/
theorem polar_roundtrip (r θ : ℝ) (hr : 0 ≤ r) :
    (Tunnel.screenToPolar (Tunnel.polarToScreen r θ).1
      (Tunnel.polarToScreen r θ).2).1 = r ∧
    (0 < r → ∃ k : ℤ,
      (Tunnel.screenToPolar (Tunnel.polarToScreen r θ).1
        (Tunnel.polarToScreen r θ).2).2 = θ + 2 * π * k) := by
  have hre : (Tunnel.polarToScreen r θ).1 - GameConfig.centerX = r * Real.cos θ := by
    simp [Tunnel.polarToScreen]
  have him : (Tunnel.polarToScreen r θ).2 - GameConfig.centerY = r * Real.sin θ := by
    simp [Tunnel.polarToScreen]
  constructor
  · rw [Tunnel.screenToPolar]
    dsimp only
    rw [hre, him]
    have hsq : (r * Real.cos θ) ^ 2 + (r * Real.sin θ) ^ 2 = r ^ 2 := by
      have hs := Real.sin_sq_add_cos_sq θ
      nlinarith [hs]
    rw [hsq, Real.sqrt_sq hr]
  · intro hrpos
    rw [Tunnel.screenToPolar]
    dsimp only
    rw [hre, him, atan2]
    have hz : (⟨r * Real.cos θ, r * Real.sin θ⟩ : ℂ) =
        (r : ℂ) * ((Real.cos θ : ℂ) + (Real.sin θ : ℂ) * Complex.I) := by
      rw [Complex.mk_eq_add_mul_I]
      push_cast
      ring
    rw [hz]
    have hang : ((Complex.arg ((r : ℂ) *
        ((Real.cos θ : ℂ) + (Real.sin θ : ℂ) * Complex.I))) : Real.Angle) =
        ((θ : ℝ) : Real.Angle) := by
      have h := Complex.arg_mul_cos_add_sin_mul_I_coe_angle hrpos
        ((θ : ℝ) : Real.Angle)
      rw [Real.Angle.cos_coe, Real.Angle.sin_coe] at h
      exact h
    obtain ⟨k, hk⟩ := Real.Angle.angle_eq_iff_two_pi_dvd_sub.mp hang
    exact ⟨k, by linarith [hk]⟩

/-- Witness for `polar_roundtrip` at `r = 1`, `θ = 0`. -/
theorem polar_roundtrip_witness :
    (Tunnel.screenToPolar (Tunnel.polarToScreen 1 0).1
      (Tunnel.polarToScreen 1 0).2).1 = 1 ∧
    ((0 : ℝ) < 1 → ∃ k : ℤ,
      (Tunnel.screenToPolar (Tunnel.polarToScreen 1 0).1
        (Tunnel.polarToScreen 1 0).2).2 = 0 + 2 * π * k) :=
  polar_roundtrip 1 0 (by norm_num)

/-- Counterexample to C5 as stated: at `r = 1`, `θ = -π/2` the round trip
returns the angle `-π/2` (the `atan2` value), while `normalizeAngle(θ)` is
`3π/2`; the recovered angle is congruent to θ but does not equal
`normalizeAngle(θ)`. -/
theorem polar_roundtrip_angle_not_normalized :
    ¬ ((Tunnel.screenToPolar (Tunnel.polarToScreen 1 (-(π / 2))).1
        (Tunnel.polarToScreen 1 (-(π / 2))).2).2 =
      Tunnel.normalizeAngle (-(π / 2))) := by
  have hpi := Real.pi_pos
  have hcos : Real.cos (-(π / 2)) = 0 := by
    rw [Real.cos_neg, Real.cos_pi_div_two]
  have hsin : Real.sin (-(π / 2)) = -1 := by
    rw [Real.sin_neg, Real.sin_pi_div_two]
  have hxy : Tunnel.polarToScreen 1 (-(π / 2)) = (400, 299) := by
    rw [Tunnel.polarToScreen, GameConfig.centerX, GameConfig.centerY, hcos, hsin]
    norm_num
  have hangle : (Tunnel.screenToPolar 400 299).2 = -(π / 2) := by
    rw [Tunnel.screenToPolar]
    dsimp only
    rw [GameConfig.centerX, GameConfig.centerY, atan2]
    rw [show (⟨(400 : ℝ) - 400, (299 : ℝ) - 300⟩ : ℂ) = -Complex.I by
      apply Complex.ext <;> norm_num]
    exact Complex.arg_neg_I
  have htr : jsTrunc (-(π / 2) / (2 * π)) = 0 := by
    have h4 : -(π / 2) / (2 * π) = -(1 / 4) := by
      rw [div_eq_iff (by positivity : (2 * π : ℝ) ≠ 0)]
      ring
    rw [jsTrunc, h4, if_neg (by norm_num)]
    rw [Int.ceil_eq_zero_iff]
    constructor <;> norm_num
  have hnorm : Tunnel.normalizeAngle (-(π / 2)) = 3 * π / 2 := by
    rw [Tunnel.normalizeAngle]
    simp only [jsMod, htr, Int.cast_zero, mul_zero, sub_zero]
    rw [if_pos (by linarith)]
    ring
  rw [hxy, hnorm]
  dsimp only
  rw [hangle]
  intro heq
  linarith

/-- C8 (amended): `calculateDepthFactor` is bounded in `[0, 1]` and antitone
on `[0, maxRadius]`, and clamps to 0 for every radius at or above
`maxRadius`; but it does NOT clamp below: negative radius inputs produce
values strictly greater than 1. -/
theorem depthFactor_props :
    (∀ r : ℝ, 0 ≤ r → r ≤ Tunnel.maxRadius →
      0 ≤ Tunnel.calculateDepthFactor r ∧ Tunnel.calculateDepthFactor r ≤ 1) ∧
    (∀ r s : ℝ, r ≤ s →
      Tunnel.calculateDepthFactor s ≤ Tunnel.calculateDepthFactor r) ∧
    (∀ r : ℝ, Tunnel.maxRadius ≤ r → Tunnel.calculateDepthFactor r = 0) ∧
    (∀ r : ℝ, r < 0 → 1 < Tunnel.calculateDepthFactor r) := by
  refine ⟨?_, ?_, ?_, ?_⟩
  · intro r h0 h1
    rw [Tunnel.maxRadius] at h1
    rw [Tunnel.calculateDepthFactor, Tunnel.maxRadius]
    rw [min_eq_left (by rw [div_le_one (by norm_num)]; exact h1)]
    constructor
    · have : r / 400 ≤ 1 := by rw [div_le_one (by norm_num)]; exact h1
      linarith
    · have : 0 ≤ r / 400 := by positivity
      linarith
  · intro r s h
    rw [Tunnel.calculateDepthFactor, Tunnel.calculateDepthFactor]
    gcongr
    rw [Tunnel.maxRadius]
    norm_num
  · intro r h
    rw [Tunnel.maxRadius] at h
    rw [Tunnel.calculateDepthFactor, Tunnel.maxRadius]
    rw [min_eq_right (by rw [le_div_iff (by norm_num)]; linarith)]
    ring
  · intro r h
    rw [Tunnel.calculateDepthFactor, Tunnel.maxRadius]
    have hneg : r / 400 < 0 := div_neg_of_neg_of_pos h (by norm_num)
    rw [min_eq_left (by linarith)]
    linarith

/-- Witness for `depthFactor_props` at concrete radii 100, 200, 500 and -1. -/
theorem depthFactor_props_witness :
    (0 ≤ Tunnel.calculateDepthFactor 100 ∧ Tunnel.calculateDepthFactor 100 ≤ 1) ∧
    Tunnel.calculateDepthFactor 200 ≤ Tunnel.calculateDepthFactor 100 ∧
    Tunnel.calculateDepthFactor 500 = 0 ∧
    1 < Tunnel.calculateDepthFactor (-1) := by
  refine ⟨?_, ?_, ?_, ?_⟩
  · exact depthFactor_props.1 100 (by norm_num) (by rw [Tunnel.maxRadius]; norm_num)
  · exact depthFactor_props.2.1 100 200 (by norm_num)
  · exact depthFactor_props.2.2.1 500 (by rw [Tunnel.maxRadius]; norm_num)
  · exact depthFactor_props.2.2.2 (-1) (by norm_num)

/-- Counterexample to C8 as stated: at radius `-400` (outside
`[0, maxRadius]`) the depth factor is 2, not a value clamped into
`[0, 1]`. -/
theorem depthFactor_negative_not_clamped :
    Tunnel.calculateDepthFactor (-400) = 2 ∧
    ¬ (Tunnel.calculateDepthFactor (-400) ≤ 1) := by
  have h2 : Tunnel.calculateDepthFactor (-400) = 2 := by
    rw [Tunnel.calculateDepthFactor, Tunnel.maxRadius]
    rw [show ((-400 : ℝ) / 400) = -1 by norm_num]
    rw [min_eq_left (by norm_num : (-1 : ℝ) ≤ 1)]
    norm_num
  exact ⟨h2, by rw [h2]; norm_num⟩

/-- C9 (amended): the start angle assigned by `getFormationAngle` to member
`i` of a circle formation is `2π·i/7` (the code divides by the constant 7,
not by the member count), so for count = 8 the angles are
`{0, 2π/7, …, 2π}`; `generateFormationPaths` does use the base `2π·i/count`
but then adds a random offset of `(rnd - 0.5)·0.2`, so its start angle also
differs from `2π·i/8` whenever the draw `rnd ≠ 0.5`. -/
theorem circle_formation_angles :
    (∀ i : ℕ, EnemyMoveJS.getFormationAngle .circle i = 2 * π * i / 7) ∧
    (∀ i count : ℕ, ∀ rnd : ℝ,
      SpiralGen.layoutStartAngle .circle i count rnd =
        2 * π * i / count + (rnd - 0.5) * 0.2) ∧
    (∀ i : ℕ, ∀ rnd : ℝ, rnd ≠ 0.5 →
      SpiralGen.layoutStartAngle .circle i 8 rnd ≠ 2 * π * i / 8) := by
  refine ⟨?_, ?_, ?_⟩
  · intro i
    rw [EnemyMoveJS.getFormationAngle]
    ring
  · intro i count rnd
    rw [SpiralGen.layoutStartAngle, SpiralGen.formationBaseAngle]
    ring
  · intro i rnd hrnd heq
    rw [SpiralGen.layoutStartAngle, SpiralGen.formationBaseAngle] at heq
    apply hrnd
    have h8 : ((8 : ℕ) : ℝ) = 8 := by norm_num
    rw [h8] at heq
    nlinarith [heq]

/-- Witness for `circle_formation_angles`: member 1 of a circle formation
gets `2π/7` from `getFormationAngle`; the layout base angle at `rnd = 0` is
`2π/8 - 0.1`, which differs from `2π/8`. -/
theorem circle_formation_angles_witness :
    EnemyMoveJS.getFormationAngle .circle 1 = 2 * π * 1 / 7 ∧
    SpiralGen.layoutStartAngle .circle 1 8 0 =
      2 * π * 1 / 8 + ((0 : ℝ) - 0.5) * 0.2 ∧
    SpiralGen.layoutStartAngle .circle 1 8 0 ≠ 2 * π * 1 / 8 := by
  refine ⟨?_, ?_, ?_⟩
  · have h := circle_formation_angles.1 1
    simpa using h
  · have h := circle_formation_angles.2.1 1 8 0
    simpa using h
  · have h := circle_formation_angles.2.2 1 0 (by norm_num)
    simpa using h

/-- Counterexample to C9 as stated: `getFormationAngle` gives member 1 of a
circle formation the angle `2π/7`, which is not `2π·1/8`. -/
theorem circle_angle_not_eighth :
    EnemyMoveJS.getFormationAngle .circle 1 = π * 2 / 7 ∧
    π * 2 / 7 ≠ 2 * π * 1 / 8 := by
  constructor
  · rw [EnemyMoveJS.getFormationAngle]
    push_cast
    ring
  · intro h
    have hpi := Real.pi_pos
    nlinarith [h]

/-- Indexing a generated spiral path below its length yields the
corresponding loop-body sample. -/
theorem generateSpiralPath_get (ty : SpiralGen.SpiralType)
    (sr tr sa : ℝ) (d : ℤ) (n : ℕ) (h : n < (d + 1).toNat) :
    (SpiralGen.generateSpiralPath ty sr tr sa d).get? n =
      some (SpiralGen.mkSample ty sr tr sa d n) := by
  rw [SpiralGen.generateSpiralPath, List.get?_map, List.get?_range h]
  rfl

/-- C6: evaluating `generateSpiralPath('gyruss', 0, 200, 0, 180)` — the
documented use "from center to target radius" — the path has the documented
length 181 and its samples follow the documented interpolation formula, but
its last sample (frame 180, `t = 1`) has radius
`0 + (200 - 0) * radiusFunction(1) = 200 * 300 = 60000`, not the target
radius 200: none of the curve profiles is normalized to
`radiusFunction(1) = 1`. -/
theorem spiral_path_last_sample_overshoots :
    (SpiralGen.generateSpiralPath .gyruss 0 200 0 180).length = 181 ∧
    (SpiralGen.generateSpiralPath .gyruss 0 200 0 180).get? 180 =
      some (SpiralGen.mkSample .gyruss 0 200 0 180 180) ∧
    (SpiralGen.mkSample .gyruss 0 200 0 180 180).radius = some 60000 ∧
    (SpiralGen.mkSample .gyruss 0 200 0 180 180).radius ≠ some 200 := by
  have hrad : (SpiralGen.mkSample .gyruss 0 200 0 180 180).radius = some 60000 := by
    rw [SpiralGen.mkSample]
    simp only [SpiralGen.radiusFunction]
    rw [if_neg (by norm_num)]
    rw [Option.map_some']
    norm_num
  refine ⟨?_, generateSpiralPath_get _ _ _ _ _ _ (by norm_num), hrad, ?_⟩
  · rw [SpiralGen.generateSpiralPath, List.length_map, List.length_range]
    decide
  · rw [hrad]
    intro hcontra
    rw [Option.some_inj] at hcontra
    norm_num at hcontra

/-- C7: calling `generateSpiralPath` with `duration = 0` is not rejected —
it returns a single sample whose `t = 0/0` is NaN, so the sample's radius
and angle are NaN (modelled by `none`) rather than the end point; and a
negative duration silently yields an empty path. -/
theorem spiral_path_nonpositive_duration_nan :
    (SpiralGen.generateSpiralPath .gyruss 0 200 0 0).length = 1 ∧
    (SpiralGen.generateSpiralPath .gyruss 0 200 0 0).get? 0 =
      some (SpiralGen.mkSample .gyruss 0 200 0 0 0) ∧
    (SpiralGen.mkSample .gyruss 0 200 0 0 0).radius = none ∧
    (SpiralGen.mkSample .gyruss 0 200 0 0 0).angle = none ∧
    SpiralGen.generateSpiralPath .gyruss 0 200 0 (-1) = [] := by
  refine ⟨?_, generateSpiralPath_get _ _ _ _ _ _ (by norm_num), ?_, ?_, ?_⟩
  · rw [SpiralGen.generateSpiralPath, List.length_map, List.length_range]
    decide
  · rw [SpiralGen.mkSample]
    simp
  · rw [SpiralGen.mkSample]
    simp
  · rw [SpiralGen.generateSpiralPath]
    norm_num

end
